import Mathlib

/-!
Shallow embedding of the LC-3 virtual machine in `vm.c` (asciiFeather/lc3-vm).

The machine state consists of the 16-bit-word memory, the register file
(R0..R7 at indices 0..7, the program counter at index 8, the condition
flags at index 9), a `running` flag (the `running` variable of `main`),
an `aborted` flag (set when the C code calls `abort()`, which terminates
the process), and the list of bytes written to the host's standard output.

Machine words are modelled as `Nat`; every place where the C code converts
a wider value to `uint16_t` (a store into a register or memory cell, or a
`uint16_t` function parameter) applies `% 65536`.  Host interaction is an
explicit parameter: `key : Option Nat` is the result of the
`check_key`/`getchar` pair used by the keyboard poll inside `mem_read`
(the pending character's code, or `none` when no key is pressed) and
`stdin : Int` is the result of `getchar()` in the GETC and IN trap
routines (`-1` on end-of-file).
-/

/-- Register indices, from the `R_R0 .. R_COND` enum of `vm.c`. -/
def R_R0 : Nat := 0

def R_R7 : Nat := 7

def R_PC : Nat := 8

def R_COND : Nat := 9

/-- Condition flags, from the `FL_POS/FL_ZRO/FL_NEG` enum (`1 << 0`, `1 << 1`, `1 << 2`). -/
def FL_POS : Nat := 1

def FL_ZRO : Nat := 2

def FL_NEG : Nat := 4

/-- Memory mapped keyboard status register address (`MR_KBSR = 0xFE00`). -/
def MR_KBSR : Nat := 0xFE00

/-- Memory mapped keyboard data register address (`MR_KBDR = 0xFE02`). -/
def MR_KBDR : Nat := 0xFE02

/-- `UINT16_MAX` of the C standard library: 65535. -/
def UINT16_MAX : Nat := 65535

/-- Number of cells of the C array `uint16_t memory[UINT16_MAX]` in `vm.c`:
the declared length is `UINT16_MAX`, i.e. 65535. -/
def memoryLength : Nat := UINT16_MAX

/-- An address indexes inside the bounds of the C array `memory`. -/
def addrInBounds (a : Nat) : Prop := a < memoryLength

instance (a : Nat) : Decidable (addrInBounds a) := by
  unfold addrInBounds; infer_instance

/-- Pointwise update of a table (a C array store `f[i] = v`). -/
def upd (f : Nat → Nat) (i v : Nat) : Nat → Nat :=
  fun j => if j = i then v else f j

/-- `signExtend` from `vm.c`: if bit `bitCount - 1` of `x` is set, OR in
`0xFFFF << bitCount`; the result is truncated to 16 bits by the `uint16_t`
assignment. -/
def signExtend (x : Nat) (bitCount : Nat) : Nat :=
  if (x >>> (bitCount - 1)) &&& 1 = 1 then
    (x ||| (0xFFFF <<< bitCount)) % 65536
  else x

/-- `updateFlgs` from `vm.c`: set `R_COND` from the current value of
register `r` (zero, negative when bit 15 is set, positive otherwise). -/
def updateFlgs (reg : Nat → Nat) (r : Nat) : Nat → Nat :=
  if reg r = 0 then upd reg R_COND FL_ZRO
  else if reg r >>> 15 ≠ 0 then upd reg R_COND FL_NEG
  else upd reg R_COND FL_POS

/-- `mem_write` from `vm.c`: unconditional store. -/
def mem_write (m : Nat → Nat) (address val : Nat) : Nat → Nat :=
  upd m address val

/-- `mem_read` from `vm.c`: on a read of `MR_KBSR`, first poll the
keyboard (`key` is the result of `check_key`/`getchar`): a pending key
stores `1 << 15` into the status cell and the key's code into the data
cell, otherwise the status cell is cleared; then the (possibly updated)
cell at `addr` is returned.  Returns the updated memory and the value. -/
def mem_read (m : Nat → Nat) (key : Option Nat) (addr : Nat) : (Nat → Nat) × Nat :=
  if addr = MR_KBSR then
    match key with
    | some c =>
      let m1 := upd (upd m MR_KBSR (1 <<< 15)) MR_KBDR (c % 65536)
      (m1, m1 addr)
    | none =>
      let m1 := upd m MR_KBSR 0
      (m1, m1 addr)
  else (m, m addr)

/-- Bytes written by the `TRAP_PUTS` loop of `vm.c`: one character per
word, the low byte of each cell starting at `addr`, stopping at the first
zero cell.  `fuel` bounds the walk (the C pointer walk is unbounded; the
address space has 65536 words). -/
def putsChars (m : Nat → Nat) : Nat → Nat → List Nat
  | _, 0 => []
  | addr, fuel + 1 =>
    if m addr = 0 then []
    else (m addr % 256) :: putsChars m (addr + 1) fuel

/-- Bytes written by the `TRAP_PUTSP` loop of `vm.c`: two packed
characters per word, low byte first, the high byte only when nonzero,
stopping at the first zero cell. -/
def putspChars (m : Nat → Nat) : Nat → Nat → List Nat
  | _, 0 => []
  | addr, fuel + 1 =>
    if m addr = 0 then []
    else
      let char1 := m addr &&& 0xFF
      let char2 := (m addr >>> 8) % 256
      ((if char2 ≠ 0 then [char1, char2] else [char1])) ++ putspChars m (addr + 1) fuel

/-- Machine state of `vm.c`: memory, register file, the `running` loop
flag, whether `abort()` was called, and the bytes written to stdout. -/
structure VM where
  mem : Nat → Nat
  reg : Nat → Nat
  running : Bool
  aborted : Bool
  out : List Nat

/-- Opcodes, from the `OP_BR .. OP_TRAP` enum of `vm.c`. -/
def OP_BR : Nat := 0

def OP_ADD : Nat := 1

def OP_LD : Nat := 2

def OP_ST : Nat := 3

def OP_JSR : Nat := 4

def OP_AND : Nat := 5

def OP_LDR : Nat := 6

def OP_STR : Nat := 7

def OP_RTI : Nat := 8

def OP_NOT : Nat := 9

def OP_LDI : Nat := 10

def OP_STI : Nat := 11

def OP_JMP : Nat := 12

def OP_RES : Nat := 13

def OP_LEA : Nat := 14

def OP_TRAP : Nat := 15

/-- Trap vectors, from the `TRAP_GETC .. TRAP_HALT` enum of `vm.c`. -/
def TRAP_GETC : Nat := 0x20

def TRAP_OUT : Nat := 0x21

def TRAP_PUTS : Nat := 0x22

def TRAP_IN : Nat := 0x23

def TRAP_PUTSP : Nat := 0x24

def TRAP_HALT : Nat := 0x25

/-- The halt message printed by `puts("Done!")`: the bytes of `Done!`
followed by the newline `puts` appends. -/
def haltMsg : List Nat := [68, 111, 110, 101, 33, 10]

/-- Execution of one decoded instruction, translated case by case from the
`switch (op)` statement of `main` in `vm.c`.  `instr` is the fetched word
(the program counter has already been incremented by the fetch), `key` is
the keyboard poll result used by `mem_read`, `stdin` the `getchar()`
result used by the GETC/IN trap routines. -/
def execInstr (s : VM) (instr : Nat) (key : Option Nat) (stdin : Int) : VM :=
  let op := instr >>> 12
  if op = OP_ADD then
    let r0 := (instr >>> 9) &&& 0x7
    let r1 := (instr >>> 6) &&& 0x7
    let immFlag := (instr >>> 5) &&& 0x1
    let reg1 :=
      if immFlag = 1 then
        let imm5 := signExtend (instr &&& 0x1F) 5
        upd s.reg r0 ((s.reg r1 + imm5) % 65536)
      else
        let r2 := instr &&& 0x7
        upd s.reg r0 ((s.reg r1 + s.reg r2) % 65536)
    { s with reg := updateFlgs reg1 r0 }
  else if op = OP_AND then
    let r0 := (instr >>> 9) &&& 0x7
    let r1 := (instr >>> 6) &&& 0x7
    let immFlag := (instr >>> 5) &&& 0x1
    let reg1 :=
      if immFlag = 1 then
        let imm5 := signExtend (instr &&& 0x1F) 5
        upd s.reg r0 (s.reg r1 &&& imm5)
      else
        let r2 := instr &&& 0x7
        upd s.reg r0 (s.reg r1 &&& s.reg r2)
    { s with reg := updateFlgs reg1 r0 }
  else if op = OP_NOT then
    let r0 := (instr >>> 9) &&& 0x7
    let r1 := (instr >>> 6) &&& 0x7
    { s with reg := updateFlgs (upd s.reg r0 (s.reg r1 ^^^ 0xFFFF)) r0 }
  else if op = OP_BR then
    let pcOffset := signExtend (instr &&& 0x1FF) 9
    let condFlag := (instr >>> 9) &&& 0x7
    if condFlag &&& s.reg R_COND ≠ 0 then
      { s with reg := upd s.reg R_PC ((s.reg R_PC + pcOffset) % 65536) }
    else s
  else if op = OP_JMP then
    let r1 := (instr >>> 6) &&& 0x7
    { s with reg := upd s.reg R_PC (s.reg r1) }
  else if op = OP_JSR then
    let longFlag := (instr >>> 11) &&& 0x1
    let reg1 := upd s.reg R_R7 (s.reg R_PC)
    if longFlag = 1 then
      let longPcOffset := signExtend (instr &&& 0x7FF) 11
      { s with reg := upd reg1 R_PC ((reg1 R_PC + longPcOffset) % 65536) }
    else
      let r1 := (instr >>> 6) &&& 0x7
      { s with reg := upd reg1 R_PC ((reg1 R_PC + reg1 r1) % 65536) }
  else if op = OP_LD then
    let r0 := (instr >>> 9) &&& 0x7
    let pcOffset := signExtend (instr &&& 0x1FF) 9
    let mr := mem_read s.mem key ((s.reg R_PC + pcOffset) % 65536)
    { s with mem := mr.1, reg := updateFlgs (upd s.reg r0 mr.2) r0 }
  else if op = OP_LDI then
    let r0 := (instr >>> 9) &&& 0x7
    let pcOffset := signExtend (instr &&& 0x1FF) 9
    let mr1 := mem_read s.mem key ((s.reg R_PC + pcOffset) % 65536)
    let mr2 := mem_read mr1.1 key (mr1.2 % 65536)
    { s with mem := mr2.1, reg := updateFlgs (upd s.reg r0 mr2.2) r0 }
  else if op = OP_LDR then
    let r0 := (instr >>> 9) &&& 0x7
    let r1 := (instr >>> 6) &&& 0x7
    let offset := signExtend (instr &&& 0x3F) 6
    let mr := mem_read s.mem key ((s.reg r1 + offset) % 65536)
    { s with mem := mr.1, reg := updateFlgs (upd s.reg r0 mr.2) r0 }
  else if op = OP_LEA then
    let r0 := (instr >>> 9) &&& 0x7
    let pcOffset := signExtend (instr &&& 0x1FF) 9
    { s with reg := updateFlgs (upd s.reg r0 ((s.reg R_PC + pcOffset) % 65536)) r0 }
  else if op = OP_ST then
    let r0 := (instr >>> 9) &&& 0x7
    let pcOffset := signExtend (instr &&& 0x1FF) 9
    { s with mem := mem_write s.mem ((s.reg R_PC + pcOffset) % 65536) (s.reg r0 % 65536) }
  else if op = OP_STI then
    let r0 := (instr >>> 9) &&& 0x7
    let pcOffset := signExtend (instr &&& 0x1FF) 9
    let mr := mem_read s.mem key ((s.reg R_PC + pcOffset) % 65536)
    -- the C source stores `registers[0]` here, not `registers[r0]`; `r0`
    -- is computed but unused, exactly as in `vm.c` line 439
    { s with mem := mem_write mr.1 (mr.2 % 65536) (s.reg 0 % 65536) }
  else if op = OP_STR then
    let r0 := (instr >>> 9) &&& 0x7
    let r1 := (instr >>> 6) &&& 0x7
    let offset := signExtend (instr &&& 0x3F) 6
    { s with mem := mem_write s.mem ((s.reg r1 + offset) % 65536) (s.reg r0 % 65536) }
  else if op = OP_TRAP then
    let vect := instr &&& 0xFF
    if vect = TRAP_GETC then
      { s with reg := upd s.reg R_R0 ((stdin.emod 65536).toNat) }
    else if vect = TRAP_OUT then
      { s with out := s.out ++ [s.reg R_R0 % 256] }
    else if vect = TRAP_PUTS then
      { s with out := s.out ++ putsChars s.mem (s.reg R_R0) 65536 }
    else if vect = TRAP_IN then
      let b := (stdin.emod 256).toNat
      let c : Int := if 128 ≤ b then (b : Int) - 256 else (b : Int)
      { s with out := s.out ++ [32, b], reg := upd s.reg R_R0 ((c.emod 65536).toNat) }
    else if vect = TRAP_PUTSP then
      { s with out := s.out ++ putspChars s.mem (s.reg R_R0) 65536 }
    else if vect = TRAP_HALT then
      { s with out := s.out ++ haltMsg, running := false }
    else
      -- the inner `switch (instr & 0xFF)` of `vm.c` has no default case:
      -- an unrecognized trap vector falls through and does nothing
      s
  else
    -- OP_RES, OP_RTI and the default case of the outer switch: `abort()`
    { s with running := false, aborted := true }

/-- One iteration of the fetch-execute loop of `main`:
`instr = mem_read(registers[R_PC]++)`, then dispatch on the opcode. -/
def step (s : VM) (key : Option Nat) (stdin : Int) : VM :=
  let pc := s.reg R_PC
  let fr := mem_read s.mem key pc
  let s1 : VM := { s with mem := fr.1, reg := upd s.reg R_PC ((pc + 1) % 65536) }
  execInstr s1 fr.2 key stdin

/-- The image-loading loop of `main` (`vm.c` lines 235-242): each list
entry is the success of `readImage` on one command-line path, in order.
Returns how many paths were attempted and `some code` when `exit(code)`
was called during the loop.  On a failure the C code prints the error and
calls `exit(1)` at once. -/
def loadImages : List Bool → Nat × Option Nat
  | [] => (0, none)
  | ok :: rest =>
    if ok then
      let r := loadImages rest
      (r.1 + 1, r.2)
    else (1, some 1)

/-! ## Helper lemmas -/

theorem upd_apply_self (f : Nat → Nat) (i v : Nat) : upd f i v i = v := by
  simp [upd]

theorem upd_apply_ne (f : Nat → Nat) (i v j : Nat) (h : j ≠ i) : upd f i v j = f j := by
  simp [upd, h]

theorem shiftRight15_ne_zero_iff (v : Nat) (hv : v < 65536) :
    v >>> 15 ≠ 0 ↔ Nat.testBit v 15 = true := by
  rw [Nat.testBit_to_div_mod, Nat.shiftRight_eq_div_pow, decide_eq_true_eq]
  norm_num
  omega

/-- Behavior of `updateFlgs`: for a general-purpose register index `r`
holding a 16-bit value, the condition-flags register afterwards holds
exactly one of the three flag values, selected by the sign of the
(unchanged) destination value. -/
theorem updateFlgs_spec (reg : Nat → Nat) (r : Nat) (hr : r < 8) (hv : reg r < 65536) :
    ((updateFlgs reg r) R_COND = FL_POS ∨ (updateFlgs reg r) R_COND = FL_ZRO ∨
      (updateFlgs reg r) R_COND = FL_NEG) ∧
    ((updateFlgs reg r) R_COND = FL_ZRO ↔ (updateFlgs reg r) r = 0) ∧
    ((updateFlgs reg r) R_COND = FL_NEG ↔ Nat.testBit ((updateFlgs reg r) r) 15 = true) ∧
    ((updateFlgs reg r) R_COND = FL_POS ↔
      ((updateFlgs reg r) r ≠ 0 ∧ Nat.testBit ((updateFlgs reg r) r) 15 = false)) := by
  have hrco : r ≠ R_COND := by unfold R_COND; omega
  have e1 : ∀ fl, upd reg R_COND fl R_COND = fl := fun fl => upd_apply_self reg R_COND fl
  have e2 : ∀ fl, upd reg R_COND fl r = reg r := fun fl => upd_apply_ne reg R_COND fl r hrco
  unfold updateFlgs
  split_ifs with h1 h2
  · simp [e1, e2, h1, FL_POS, FL_ZRO, FL_NEG]
  · have ht := (shiftRight15_ne_zero_iff _ hv).mp h2
    simp [e1, e2, h1, ht, FL_POS, FL_ZRO, FL_NEG]
  · cases hb : Nat.testBit (reg r) 15 with
    | false => simp [e1, e2, h1, hb, FL_POS, FL_ZRO, FL_NEG]
    | true => exact absurd ((shiftRight15_ne_zero_iff _ hv).mpr hb) h2

/-- `mem_read` preserves 16-bit-boundedness of memory and returns a
16-bit value. -/
theorem mem_read_bounded (m : Nat → Nat) (key : Option Nat) (addr : Nat)
    (hm : ∀ a, m a < 65536) :
    (∀ a, (mem_read m key addr).1 a < 65536) ∧ (mem_read m key addr).2 < 65536 := by
  by_cases h : addr = MR_KBSR
  · rcases key with _ | c
    · constructor
      · intro a
        simp only [mem_read, h, if_pos rfl]
        by_cases ha : a = MR_KBSR
        · simp [upd, ha]
        · simp [upd, ha, hm a]
      · simp [mem_read, h, upd]
    · constructor
      · intro a
        simp only [mem_read, h, if_pos rfl]
        by_cases ha : a = MR_KBDR
        · simp [upd, ha, MR_KBDR, MR_KBSR, Nat.mod_lt c (by norm_num : 0 < 65536)]
        · by_cases hb : a = MR_KBSR
          · simp [upd, ha, hb, MR_KBDR, MR_KBSR]
          · simp [upd, ha, hb, hm a]
      · simp [mem_read, h, upd, MR_KBDR, MR_KBSR]
  · simp [mem_read, h, hm, hm addr]

/-! ## Claim C1 (STI stored source register) -/

/-- Concrete machine for the STI claim: the word at the initial program
counter 0x3000 is `0xB200`, i.e. STI with source-register field
(bits 11:9) equal to 1 and offset 0; the cell at 0x3001 holds the
indirect target address 0x4000; register R1 holds 5 and register R0
holds 7. -/
def stiState : VM :=
  { mem := fun a => if a = 0x3000 then 0xB200 else if a = 0x3001 then 0x4000 else 0,
    reg := fun r => if r = 0 then 7 else if r = 1 then 5 else if r = 8 then 0x3000 else 0,
    running := true, aborted := false, out := [] }

/-- Claim C1 is violated by the code: executing the STI instruction
`0xB200` (source-register field = 1, so the claim requires the stored
value to be R1 = 5) stores the value of register R0 = 7 instead, because
`vm.c` line 439 writes `registers[0]` rather than `registers[r0]`.  The
spec itself flags this in its design notes as a bug in the source. -/
theorem sti_stores_register_zero :
    stiState.reg 1 = 5 ∧ stiState.reg 0 = 7 ∧
    (step stiState none 0).mem 0x4000 = 7 ∧ ¬ (step stiState none 0).mem 0x4000 = 5 := by
  decide

/-! ## Claim C2 (JSR register form) -/

/-- Concrete machine for the JSR claim: the word at 0x3000 is `0x4080`,
i.e. JSR with bit 11 = 0 (the register form, JSRR) and base register
field (bits 8:6) equal to 2; register R2 holds 0x1234. -/
def jsrState : VM :=
  { mem := fun a => if a = 0x3000 then 0x4080 else 0,
    reg := fun r => if r = 2 then 0x1234 else if r = 8 then 0x3000 else 0,
    running := true, aborted := false, out := [] }

/-- Claim C2 is violated by the code on its register form: after the
JSRR instruction `0x4080`, R7 correctly holds the post-fetch program
counter 0x3001, but the program counter becomes
`0x3001 + 0x1234 = 0x4235` — the code increments the program counter by
the base register (`registers[R_PC] += registers[r1]`, `vm.c` line 366)
instead of setting it equal to the base register value 0x1234 as the
claim (and the LC-3 ISA) requires. -/
theorem jsrr_increments_pc_by_base :
    (step jsrState none 0).reg 7 = 0x3001 ∧
    (step jsrState none 0).reg 8 = 0x4235 ∧
    ¬ (step jsrState none 0).reg 8 = 0x1234 := by
  decide

/-! ## Claim C3 (memory covers all 65536 addresses) -/

/-- Claim C3 is violated by the code: the C array is declared
`uint16_t memory[UINT16_MAX]`, which has 65535 cells (indices 0..65534),
not 65536; the address 0xFFFF = 65535 is out of bounds, so `mem_read`
or `mem_write` at 0xFFFF (e.g. the fetch when the program counter wraps
to 0xFFFF) indexes past the array.  The code contradicts its own comment
(`// has 65536 locations`). -/
theorem memory_array_excludes_last_address :
    memoryLength = 65535 ∧ ¬ addrInBounds 0xFFFF ∧ addrInBounds 0xFFFE := by
  decide

/-! ## Claim C8 (image loading batch behavior) -/

/-- Claim C8 is violated by the code: with two image paths where the
first fails to load, the loop attempts only 1 of the 2 paths and calls
`exit(1)` at once (`vm.c` lines 235-242), so a load failure is fatal to
the rest of the batch and later paths are never attempted. -/
theorem first_load_failure_exits :
    loadImages [false, true] = (1, some 1) ∧ ¬ (loadImages [false, true]).1 = 2 := by
  decide

/-- Amended claim C8: the image paths are attempted in order only up to
and including the first failure; that failure makes the process exit
with code 1 immediately, without attempting the remaining paths; if
every load succeeds, all paths are attempted and no exit occurs. -/
theorem loadImages_stops_at_first_failure (results : List Bool) :
    loadImages results =
      if false ∈ results
      then ((results.takeWhile (fun b => b)).length + 1, some 1)
      else (results.length, none) := by
  induction results with
  | nil => simp [loadImages]
  | cons ok rest ih =>
    cases ok
    · simp [loadImages]
    · by_cases h : false ∈ rest
      · simp [loadImages, ih, h, List.takeWhile]
      · simp [loadImages, ih, h, List.takeWhile]

/-! ## Claim C10 (GETC / IN on end-of-file) -/

/-- Claim C10 holds: when `getchar()` returns -1 (end-of-file) during a
GETC trap (`0xF020`) or an IN trap (`0xF023`), R0 receives
`(uint16_t)(-1) = 0xFFFF`; no error is signalled (`running` and
`aborted` are untouched, memory is untouched) and the fetch loop simply
continues; IN additionally echoes the prompt blank and the low byte 255
of the truncated character. -/
theorem getc_in_eof_yields_ffff (s : VM) (key : Option Nat) :
    (execInstr s 0xF020 key (-1)).reg 0 = 0xFFFF ∧
    (execInstr s 0xF020 key (-1)).running = s.running ∧
    (execInstr s 0xF020 key (-1)).aborted = s.aborted ∧
    (execInstr s 0xF020 key (-1)).mem = s.mem ∧
    (execInstr s 0xF020 key (-1)).out = s.out ∧
    (execInstr s 0xF023 key (-1)).reg 0 = 0xFFFF ∧
    (execInstr s 0xF023 key (-1)).running = s.running ∧
    (execInstr s 0xF023 key (-1)).aborted = s.aborted ∧
    (execInstr s 0xF023 key (-1)).mem = s.mem ∧
    (execInstr s 0xF023 key (-1)).out = s.out ++ [32, 255] :=
  ⟨rfl, rfl, rfl, rfl, rfl, rfl, rfl, rfl, rfl, rfl⟩

/-! ## Claim C4 (unrecognized trap vectors) -/

/-- Concrete machine whose word at 0x3000 is `0xF026`: a TRAP instruction
with the unrecognized vector 0x26. -/
def trapState : VM :=
  { mem := fun a => if a = 0x3000 then 0xF026 else 0,
    reg := fun r => if r = 8 then 0x3000 else 0,
    running := true, aborted := false, out := [] }

/-- Claim C4 is false on the code: executing the TRAP instruction
`0xF026`, whose vector 0x26 is none of the six defined vectors, does not
stop execution — the engine silently continues the fetch loop (`running`
stays true, `abort()` is not reached, the program counter moves on to
0x3001 and memory is untouched), because the inner
`switch (instr & 0xFF)` of `vm.c` has no default case. -/
theorem unknown_trap_vector_continues :
    (step trapState none 0).running = true ∧
    (step trapState none 0).aborted = false ∧
    (step trapState none 0).reg 8 = 0x3001 ∧
    (step trapState none 0).mem = trapState.mem :=
  ⟨by decide, by decide, by decide, rfl⟩

/-- Amended claim C4: a TRAP instruction whose low 8 bits are not one of
the six defined vectors 0x20..0x25 is silently ignored — the machine
state is completely unchanged by the instruction (beyond the fetch's
program-counter increment) and the fetch loop continues. -/
theorem unknown_trap_vector_noop (s : VM) (instr : Nat) (key : Option Nat) (stdin : Int)
    (hop : instr >>> 12 = 15)
    (h20 : ¬ instr &&& 0xFF = 0x20) (h21 : ¬ instr &&& 0xFF = 0x21)
    (h22 : ¬ instr &&& 0xFF = 0x22) (h23 : ¬ instr &&& 0xFF = 0x23)
    (h24 : ¬ instr &&& 0xFF = 0x24) (h25 : ¬ instr &&& 0xFF = 0x25) :
    execInstr s instr key stdin = s := by
  simp [execInstr, hop, h20, h21, h22, h23, h24, h25, OP_ADD, OP_AND, OP_NOT, OP_BR,
    OP_JMP, OP_JSR, OP_LD, OP_LDI, OP_LDR, OP_LEA, OP_ST, OP_STI, OP_STR, OP_TRAP,
    TRAP_GETC, TRAP_OUT, TRAP_PUTS, TRAP_IN, TRAP_PUTSP, TRAP_HALT]

/-- Witness for the amended claim C4 at the concrete trap word 0xF026. -/
theorem unknown_trap_vector_noop_witness :
    execInstr trapState 0xF026 none 0 = trapState :=
  unknown_trap_vector_noop trapState 0xF026 none 0 (by decide) (by decide) (by decide)
    (by decide) (by decide) (by decide) (by decide)

/-! ## Claim C5 (keyboard status reads) -/

/-- Claim C5 holds for `mem_read`: a status read at 0xFE00 with no key
pending stores 0 into the status cell and returns 0, so two consecutive
no-key status reads return 0 both times; with a pending key of code `c`,
the status cell receives `1 << 15` (high bit set, and that is the value
returned), the data cell 0xFE02 receives `c`, and a subsequent data read
(which does not poll, whatever the keyboard then holds) returns `c`. -/
theorem kbsr_poll_semantics (m : Nat → Nat) (c : Nat) (k2 : Option Nat) (hc : c < 65536) :
    (mem_read m none MR_KBSR).2 = 0 ∧
    ((mem_read m none MR_KBSR).1) MR_KBSR = 0 ∧
    (mem_read ((mem_read m none MR_KBSR).1) none MR_KBSR).2 = 0 ∧
    Nat.testBit ((mem_read m (some c) MR_KBSR).2) 15 = true ∧
    ((mem_read m (some c) MR_KBSR).1) MR_KBSR = 32768 ∧
    ((mem_read m (some c) MR_KBSR).1) MR_KBDR = c ∧
    (mem_read ((mem_read m (some c) MR_KBSR).1) k2 MR_KBDR).2 = c := by
  refine ⟨?_, ?_, ?_, ?_, ?_, ?_, ?_⟩ <;>
    simp [mem_read, upd, MR_KBSR, MR_KBDR, Nat.mod_eq_of_lt hc] <;> decide

/-- Witness for claim C5 at the all-zero memory and key code 65. -/
theorem kbsr_poll_semantics_witness :
    (mem_read (fun _ => 0) none MR_KBSR).2 = 0 ∧
    ((mem_read (fun _ => 0) none MR_KBSR).1) MR_KBSR = 0 ∧
    (mem_read ((mem_read (fun _ => 0) none MR_KBSR).1) none MR_KBSR).2 = 0 ∧
    Nat.testBit ((mem_read (fun _ => 0) (some 65) MR_KBSR).2) 15 = true ∧
    ((mem_read (fun _ => 0) (some 65) MR_KBSR).1) MR_KBSR = 32768 ∧
    ((mem_read (fun _ => 0) (some 65) MR_KBSR).1) MR_KBDR = 65 ∧
    (mem_read ((mem_read (fun _ => 0) (some 65) MR_KBSR).1) none MR_KBDR).2 = 65 :=
  kbsr_poll_semantics (fun _ => 0) 65 none (by decide)

/-! ## Claim C9 (PUTS / PUTSP frame effect) -/

/-- Claim C9 holds: the PUTS and PUTSP trap routines read the string
cells directly from the memory array (never through `mem_read`), so
the produced bytes are computed from the stored cell values only —
independent of any pending key — and memory, every register, and the
run flags are unchanged by the routines. -/
theorem puts_putsp_frame (s : VM) (instr : Nat) (key : Option Nat) (stdin : Int)
    (hop : instr >>> 12 = 15) (hv : instr &&& 0xFF = 0x22 ∨ instr &&& 0xFF = 0x24) :
    (execInstr s instr key stdin).mem = s.mem ∧
    (execInstr s instr key stdin).reg = s.reg ∧
    (execInstr s instr key stdin).running = s.running ∧
    (execInstr s instr key stdin).aborted = s.aborted ∧
    (execInstr s instr key stdin).out =
      s.out ++ (if instr &&& 0xFF = 0x22
                then putsChars s.mem (s.reg R_R0) 65536
                else putspChars s.mem (s.reg R_R0) 65536) := by
  rcases hv with h | h <;>
    simp [execInstr, hop, h, OP_ADD, OP_AND, OP_NOT, OP_BR, OP_JMP, OP_JSR, OP_LD,
      OP_LDI, OP_LDR, OP_LEA, OP_ST, OP_STI, OP_STR, OP_TRAP, TRAP_GETC, TRAP_OUT,
      TRAP_PUTS, TRAP_IN, TRAP_PUTSP, TRAP_HALT]

/-- Concrete machine for the C9 witness: R0 points at a two-character
string that spans the keyboard-status address 0xFE00 (cells 0xFDFF and
0xFE00 hold character codes, cell 0xFE01 is the terminator). -/
def putsState : VM :=
  { mem := fun a => if a = 0xFDFF then 72 else if a = 0xFE00 then 105 else 0,
    reg := fun r => if r = 0 then 0xFDFF else 0,
    running := true, aborted := false, out := [] }

/-- Witness for claim C9 on a PUTS (`0xF022`) whose string spans 0xFE00. -/
theorem puts_putsp_frame_witness :
    (execInstr putsState 0xF022 none 0).mem = putsState.mem ∧
    (execInstr putsState 0xF022 none 0).reg = putsState.reg ∧
    (execInstr putsState 0xF022 none 0).running = putsState.running ∧
    (execInstr putsState 0xF022 none 0).aborted = putsState.aborted ∧
    (execInstr putsState 0xF022 none 0).out =
      putsState.out ++ (if 0xF022 &&& 0xFF = 0x22
                then putsChars putsState.mem (putsState.reg R_R0) 65536
                else putspChars putsState.mem (putsState.reg R_R0) 65536) :=
  puts_putsp_frame putsState 0xF022 none 0 (by decide) (Or.inl (by decide))

/-! ## Claim C6 (condition-flag invariant) -/

/-- Claim C6 holds: after executing any of the seven flag-updating
opcodes (ADD = 1, AND = 5, NOT = 9, LD = 2, LDI = 10, LDR = 6, LEA = 14)
from a state whose registers and memory hold 16-bit values, the
condition-flags register holds exactly one of FL_POS, FL_ZRO, FL_NEG,
and the selected flag is ZRO iff the destination register (bits 11:9)
is 0, NEG iff its bit 15 is set, and POS otherwise. -/
theorem flag_update_after_gpr_write (s : VM) (instr : Nat) (key : Option Nat) (stdin : Int)
    (hreg : ∀ r, s.reg r < 65536) (hmem : ∀ a, s.mem a < 65536)
    (hop : instr >>> 12 = OP_ADD ∨ instr >>> 12 = OP_AND ∨ instr >>> 12 = OP_NOT ∨
           instr >>> 12 = OP_LD ∨ instr >>> 12 = OP_LDI ∨ instr >>> 12 = OP_LDR ∨
           instr >>> 12 = OP_LEA) :
    ((execInstr s instr key stdin).reg R_COND = FL_POS ∨
     (execInstr s instr key stdin).reg R_COND = FL_ZRO ∨
     (execInstr s instr key stdin).reg R_COND = FL_NEG) ∧
    ((execInstr s instr key stdin).reg R_COND = FL_ZRO ↔
      (execInstr s instr key stdin).reg ((instr >>> 9) &&& 0x7) = 0) ∧
    ((execInstr s instr key stdin).reg R_COND = FL_NEG ↔
      Nat.testBit ((execInstr s instr key stdin).reg ((instr >>> 9) &&& 0x7)) 15 = true) ∧
    ((execInstr s instr key stdin).reg R_COND = FL_POS ↔
      ((execInstr s instr key stdin).reg ((instr >>> 9) &&& 0x7) ≠ 0 ∧
       Nat.testBit ((execInstr s instr key stdin).reg ((instr >>> 9) &&& 0x7)) 15 = false)) := by
  have hdr : (instr >>> 9) &&& 0x7 < 8 := Nat.lt_of_le_of_lt Nat.and_le_right (by norm_num)
  simp only [OP_ADD, OP_AND, OP_NOT, OP_LD, OP_LDI, OP_LDR, OP_LEA] at hop
  rcases hop with h | h | h | h | h | h | h
  · -- ADD
    by_cases him : (instr >>> 5) &&& 0x1 = 1
    · have he : (execInstr s instr key stdin).reg =
          updateFlgs (upd s.reg ((instr >>> 9) &&& 0x7)
            ((s.reg ((instr >>> 6) &&& 0x7) + signExtend (instr &&& 0x1F) 5) % 65536))
            ((instr >>> 9) &&& 0x7) := by
        simp only [execInstr, h, him]
        rfl
      rw [he]
      refine updateFlgs_spec _ _ hdr ?_
      rw [upd_apply_self]
      exact Nat.mod_lt _ (by norm_num)
    · have him0 : (instr >>> 5) &&& 0x1 = 0 := by
        rw [Nat.and_one_is_mod] at him ⊢
        omega
      have he : (execInstr s instr key stdin).reg =
          updateFlgs (upd s.reg ((instr >>> 9) &&& 0x7)
            ((s.reg ((instr >>> 6) &&& 0x7) + s.reg (instr &&& 0x7)) % 65536))
            ((instr >>> 9) &&& 0x7) := by
        simp only [execInstr, h, him0]
        rfl
      rw [he]
      refine updateFlgs_spec _ _ hdr ?_
      rw [upd_apply_self]
      exact Nat.mod_lt _ (by norm_num)
  · -- AND
    by_cases him : (instr >>> 5) &&& 0x1 = 1
    · have he : (execInstr s instr key stdin).reg =
          updateFlgs (upd s.reg ((instr >>> 9) &&& 0x7)
            (s.reg ((instr >>> 6) &&& 0x7) &&& signExtend (instr &&& 0x1F) 5))
            ((instr >>> 9) &&& 0x7) := by
        simp only [execInstr, h, him]
        rfl
      rw [he]
      refine updateFlgs_spec _ _ hdr ?_
      rw [upd_apply_self]
      exact Nat.lt_of_le_of_lt Nat.and_le_left (hreg _)
    · have him0 : (instr >>> 5) &&& 0x1 = 0 := by
        rw [Nat.and_one_is_mod] at him ⊢
        omega
      have he : (execInstr s instr key stdin).reg =
          updateFlgs (upd s.reg ((instr >>> 9) &&& 0x7)
            (s.reg ((instr >>> 6) &&& 0x7) &&& s.reg (instr &&& 0x7)))
            ((instr >>> 9) &&& 0x7) := by
        simp only [execInstr, h, him0]
        rfl
      rw [he]
      refine updateFlgs_spec _ _ hdr ?_
      rw [upd_apply_self]
      exact Nat.lt_of_le_of_lt Nat.and_le_left (hreg _)
  · -- NOT
    have he : (execInstr s instr key stdin).reg =
        updateFlgs (upd s.reg ((instr >>> 9) &&& 0x7)
          (s.reg ((instr >>> 6) &&& 0x7) ^^^ 0xFFFF)) ((instr >>> 9) &&& 0x7) := by
      simp only [execInstr, h]
      rfl
    rw [he]
    refine updateFlgs_spec _ _ hdr ?_
    rw [upd_apply_self]
    have hx : s.reg ((instr >>> 6) &&& 0x7) ^^^ 0xFFFF < 2 ^ 16 :=
      Nat.xor_lt_two_pow (by norm_num [hreg ((instr >>> 6) &&& 0x7)]) (by norm_num)
    norm_num at hx
    exact hx
  · -- LD
    have he : (execInstr s instr key stdin).reg =
        updateFlgs (upd s.reg ((instr >>> 9) &&& 0x7)
          (mem_read s.mem key ((s.reg R_PC + signExtend (instr &&& 0x1FF) 9) % 65536)).2)
          ((instr >>> 9) &&& 0x7) := by
      simp only [execInstr, h]
      rfl
    rw [he]
    refine updateFlgs_spec _ _ hdr ?_
    rw [upd_apply_self]
    exact (mem_read_bounded s.mem key _ hmem).2
  · -- LDI
    have he : (execInstr s instr key stdin).reg =
        updateFlgs (upd s.reg ((instr >>> 9) &&& 0x7)
          (mem_read
            (mem_read s.mem key ((s.reg R_PC + signExtend (instr &&& 0x1FF) 9) % 65536)).1
            key
            ((mem_read s.mem key
              ((s.reg R_PC + signExtend (instr &&& 0x1FF) 9) % 65536)).2 % 65536)).2)
          ((instr >>> 9) &&& 0x7) := by
      simp only [execInstr, h]
      rfl
    rw [he]
    refine updateFlgs_spec _ _ hdr ?_
    rw [upd_apply_self]
    exact (mem_read_bounded _ key _ (mem_read_bounded s.mem key _ hmem).1).2
  · -- LDR
    have he : (execInstr s instr key stdin).reg =
        updateFlgs (upd s.reg ((instr >>> 9) &&& 0x7)
          (mem_read s.mem key
            ((s.reg ((instr >>> 6) &&& 0x7) + signExtend (instr &&& 0x3F) 6) % 65536)).2)
          ((instr >>> 9) &&& 0x7) := by
      simp only [execInstr, h]
      rfl
    rw [he]
    refine updateFlgs_spec _ _ hdr ?_
    rw [upd_apply_self]
    exact (mem_read_bounded s.mem key _ hmem).2
  · -- LEA
    have he : (execInstr s instr key stdin).reg =
        updateFlgs (upd s.reg ((instr >>> 9) &&& 0x7)
          ((s.reg R_PC + signExtend (instr &&& 0x1FF) 9) % 65536)) ((instr >>> 9) &&& 0x7) := by
      simp only [execInstr, h]
      rfl
    rw [he]
    refine updateFlgs_spec _ _ hdr ?_
    rw [upd_apply_self]
    exact Nat.mod_lt _ (by norm_num)

/-- Concrete machine for the C6 witness: all memory zero, R2 = 4. -/
def addState : VM :=
  { mem := fun _ => 0,
    reg := fun r => if r = 2 then 4 else 0,
    running := true, aborted := false, out := [] }

/-- Witness for claim C6: the ADD-immediate instruction `0x16A1`
(ADD R3, R2, 1) executed from `addState`. -/
theorem flag_update_after_gpr_write_witness :
    ((execInstr addState 0x16A1 none 0).reg R_COND = FL_POS ∨
     (execInstr addState 0x16A1 none 0).reg R_COND = FL_ZRO ∨
     (execInstr addState 0x16A1 none 0).reg R_COND = FL_NEG) ∧
    ((execInstr addState 0x16A1 none 0).reg R_COND = FL_ZRO ↔
      (execInstr addState 0x16A1 none 0).reg ((0x16A1 >>> 9) &&& 0x7) = 0) ∧
    ((execInstr addState 0x16A1 none 0).reg R_COND = FL_NEG ↔
      Nat.testBit ((execInstr addState 0x16A1 none 0).reg ((0x16A1 >>> 9) &&& 0x7)) 15 = true) ∧
    ((execInstr addState 0x16A1 none 0).reg R_COND = FL_POS ↔
      ((execInstr addState 0x16A1 none 0).reg ((0x16A1 >>> 9) &&& 0x7) ≠ 0 ∧
       Nat.testBit ((execInstr addState 0x16A1 none 0).reg ((0x16A1 >>> 9) &&& 0x7)) 15 = false)) :=
  flag_update_after_gpr_write addState 0x16A1 none 0
    (fun r => by simp only [addState]; split_ifs <;> norm_num)
    (fun a => by simp only [addState]; norm_num)
    (Or.inl (by decide))

/-! ## Claim C7 (sign extension) -/

/-- Claim C7 holds: for each field width used by the instruction set
(5, 6, 9, 11) and every field value below 2^w, `signExtend` returns the
field's two's-complement value reinterpreted as a 16-bit word — the
field unchanged when bit w-1 is clear, and the field minus 2^w taken
modulo 2^16 (all bits above w-1 set) when bit w-1 is set; in particular
`signExtend 0b11111 5 = 0xFFFF` and `signExtend 0b01111 5 = 0x000F`. -/
theorem signExtend_twos_complement :
    (∀ w ∈ [5, 6, 9, 11], ∀ f : Nat, f < 2 ^ w →
      signExtend f w =
        ((if Nat.testBit f (w - 1) then (f : Int) - ((2 ^ w : Nat) : Int)
          else (f : Int)) % 65536).toNat) ∧
    signExtend 31 5 = 0xFFFF ∧ signExtend 15 5 = 0x000F := by
  refine ⟨?_, by decide, by decide⟩
  intro w hw f hf
  have hw4 : w = 5 ∨ w = 6 ∨ w = 9 ∨ w = 11 := by simpa using hw
  rcases hw4 with rfl | rfl | rfl | rfl <;>
  · simp only [signExtend, Nat.shiftRight_eq_div_pow, Nat.and_one_is_mod,
      Nat.testBit_to_div_mod, Nat.shiftLeft_eq, decide_eq_true_eq]
    have hor := Nat.mul_add_lt_is_or hf 65535
    rw [Nat.or_comm] at hor
    norm_num at hor hf ⊢
    split_ifs with hbit <;> omega

/-- Witness for claim C7 at width 5 and field value 0b11111. -/
theorem signExtend_twos_complement_witness :
    5 ∈ [5, 6, 9, 11] ∧ 31 < 2 ^ 5 ∧
    signExtend 31 5 =
      ((if Nat.testBit 31 (5 - 1) then ((31 : Nat) : Int) - ((2 ^ 5 : Nat) : Int)
        else ((31 : Nat) : Int)) % 65536).toNat :=
  ⟨by decide, by decide, signExtend_twos_complement.1 5 (by decide) 31 (by decide)⟩
